import Mathlib

/-!
Verification of the token-issuance endpoint of the SMART-on-FHIR launcher
(`src/backend/routes/auth/token.ts`, class `TokenHandler`).

Modelling conventions:
* JavaScript string/number fields that the source tests with truthiness
  (`if (!x)`) are modelled as `Option` values; a field is *present* (truthy)
  iff it is `some` of a non-empty string (resp. a non-zero number), matching
  the falsy values `undefined` and `""` (resp. `0`).
* Signed JWTs are modelled symbolically: a signed token is its payload
  together with the signing key; `jwtVerify` succeeds iff the key equals the
  verification secret. Registered claims added by the jsonwebtoken library
  itself (`iat`, `exp`) are time-dependent and outside the model.
* External library primitives (node `crypto` hashing, `Buffer` base64,
  `decodeURIComponent`) are modelled as oracle functions collected in
  `CryptoPrims`; the outbound HTTP fetch is modelled as an oracle
  `net : String → FetchOutcome`, and every fetch the embedded code issues is
  recorded in a trace of `FetchCall` values.
-/

namespace SmartTokens

/-- Modelled from the spec (section 7; the errors module is not under src/):
the three error kinds raised by the token handler. -/
inductive ErrKind
  | invalidRequest
  | invalidClient
  | oauth
deriving DecidableEq

/-- Modelled from the spec (section 7): an error carries a kind, an HTTP
status, an OAuth error identifier and a human readable message. -/
structure Err where
  kind : ErrKind
  status : Nat
  errorId : String
  msg : String
deriving DecidableEq

def invalidClientError (msg : String) (status : Nat) : Err :=
  ⟨ErrKind.invalidClient, status, "invalid_client", msg⟩

def invalidRequestError (msg : String) (status : Nat) : Err :=
  ⟨ErrKind.invalidRequest, status, "invalid_request", msg⟩

def oauthError (msg : String) (errorId : String) (status : Nat) : Err :=
  ⟨ErrKind.oauth, status, errorId, msg⟩

/-- JavaScript truthiness of an optional string field: `undefined` and the
empty string are falsy. -/
def truthyStr : Option String → Bool
  | none => false
  | some s => !(s == "")

/-- JavaScript truthiness of an optional numeric field: `undefined` and `0`
are falsy. -/
def truthyNat : Option Nat → Bool
  | none => false
  | some n => !(n == 0)

/-- JavaScript string coercion of a possibly undefined string (as performed
by `decodeURIComponent` and `String.prototype.replace` on `undefined`). -/
def jsString : Option String → String
  | none => "undefined"
  | some s => s

/-- A plain JSON atom that can appear in the free-form `context` map of an
authorization token. -/
inductive CtxVal
  | str (s : String)
  | num (n : Int)
  | null
deriving DecidableEq

/-- A JSON Web Key as consumed by `pickPublicKey`: the source only inspects
the `kid` and `alg` members. -/
structure JWK where
  kid : Option String
  alg : Option String
deriving DecidableEq

/-- The JSON document obtained from a JWKS source, classified by the shape
cases distinguished by `validateJwks`. -/
inductive JwksDoc
  | notAnObject
  | missingKeys
  | keysNotArray
  | withKeys (keys : List JWK)
deriving DecidableEq

/-- The `jwks` field of an authorization token: either an inline object or a
string-encoded JSON document. A string value carries the outcome of
`JSON.parse` on it (`none` when parsing would throw). -/
inductive JwksField
  | strVal (raw : String) (parsed : Option JwksDoc)
  | objVal (doc : JwksDoc)
deriving DecidableEq

/-- JavaScript truthiness of the `jwks` field (objects are truthy, strings
are truthy iff non-empty). -/
def truthyJwks : Option JwksField → Bool
  | none => false
  | some (JwksField.strVal raw _) => !(raw == "")
  | some (JwksField.objVal _) => true

/-- The decoded claims of a `code` or `refresh_token` JWT
(`SMART.AuthorizationToken`). -/
structure AuthorizationToken where
  redirect_uri : Option String := none
  code_challenge : Option String := none
  code_challenge_method : Option String := none
  client_id : Option String := none
  client_secret : Option String := none
  jwks_url : Option String := none
  jwks : Option JwksField := none
  scope : Option String := none
  user : Option String := none
  context : List (String × CtxVal) := []
  nonce : Option String := none
  accessTokensExpireIn : Option Nat := none
  auth_error : Option String := none
deriving DecidableEq

/-- A string submitted where a symmetrically signed JWT is expected: either
garbage, or a payload signed with some key. The `expiresIn` option passed to
`jwt.sign` is recorded but (being time-dependent) never inspected. -/
inductive SignedJwt
  | malformed
  | signed (payload : AuthorizationToken) (key : String) (expiresIn : Option Nat)
deriving DecidableEq

/-- `jwt.verify(token, secret)` for symmetric tokens: fails on a missing or
malformed token or a key mismatch, otherwise returns the payload. -/
def jwtVerify (secret : String) : Option SignedJwt → Except String AuthorizationToken
  | none => Except.error "jwt must be provided"
  | some SignedJwt.malformed => Except.error "jwt malformed"
  | some (SignedJwt.signed payload key _) =>
      if key == secret then Except.ok payload else Except.error "invalid signature"

/-- Modelled from the spec (section 6; the config module is not under src/):
the read-only process configuration. The spec describes the default
access-token lifetime as exposed in seconds and the refresh-token lifetime
in minutes. -/
structure Config where
  jwtSecret : String
  privateKeyAsPem : String
  supportedAlgorithms : List String
  accessTokenLifetime : Nat
  refreshTokenLifeTime : Nat
deriving DecidableEq

/-- External cryptographic and encoding primitives used by the handler,
modelled as oracles: `sha256base64url` is the composite
base64url(sha256(s)) used for PKCE, `sha256hex` the hex digest used for the
id-token subject, `urlDecode` is `decodeURIComponent`, and `base64decode`
is `Buffer.from(s, "base64").toString()`. -/
structure CryptoPrims where
  sha256base64url : String → String
  sha256hex : String → String
  urlDecode : String → String
  base64decode : String → String

/-- Split a character list on the space character (the separator list is
never dropped: splitting the empty list yields one empty word, matching a
JavaScript split on a string). -/
def splitOnSpace : List Char → List (List Char)
  | [] => [[]]
  | c :: rest =>
      let r := splitOnSpace rest
      if c = ' ' then [] :: r
      else
        match r with
        | [] => [[c]]
        | w :: ws => (c :: w) :: ws

/-- Modelled from the spec (section 4.7 step 3; `ScopeSet` is not under
src/): a scope string is parsed as a space-delimited set and `has` tests
membership. -/
def scopeHas (scopeString : String) (name : String) : Bool :=
  (splitOnSpace scopeString.toList).contains name.toList

/-- The outcome the network oracle assigns to a URL: a transport-level
failure (rejected promise), or an HTTP response with its `ok` flag, status
data and the result of `res.json()` (`none` when the body is not JSON). -/
inductive FetchOutcome
  | transportError (msg : String)
  | response (ok : Bool) (status : Nat) (statusText : String) (jsonBody : Option JwksDoc)

/-- A record of one outbound `fetch` call: the URL and the `accept` header
sent with it. -/
structure FetchCall where
  url : String
  accept : String
deriving DecidableEq

/-- `TokenHandler.fetchJwks` (token.ts lines 276-286): a single GET with an
`accept: application/json` header; every failure (transport error,
non-success status, body that is not JSON) is wrapped into an
`InvalidClientError` with status 401. The second component is the trace of
fetch calls issued. -/
def fetchJwks (net : String → FetchOutcome) (url : String) :
    Except Err JwksDoc × List FetchCall :=
  let result : Except Err JwksDoc :=
    match net url with
    | FetchOutcome.transportError msg =>
        Except.error (invalidClientError
          ("Failed to fetch JWKS from " ++ url ++ ". " ++ msg) 401)
    | FetchOutcome.response ok status statusText jsonBody =>
        if !ok then
          Except.error (invalidClientError
            ("Failed to fetch JWKS from " ++ url ++ ". " ++ toString status ++ " " ++ statusText) 401)
        else
          match jsonBody with
          | none => Except.error (invalidClientError
              ("Failed to fetch JWKS from " ++ url ++ ". invalid json response body") 401)
          | some doc => Except.ok doc
  (result, [⟨url, "application/json"⟩])

/-- `TokenHandler.validateJwks` (token.ts lines 288-298): shape validation
of the resolved JWKS document. -/
def validateJwks : JwksDoc → Except Err Unit
  | JwksDoc.notAnObject =>
      Except.error (invalidClientError "JWKS is not an object" 401)
  | JwksDoc.missingKeys =>
      Except.error (invalidClientError "JWKS does not have a keys property" 401)
  | JwksDoc.keysNotArray =>
      Except.error (invalidClientError "jwks.keys must be an array" 401)
  | JwksDoc.withKeys _ => Except.ok ()

/-- The `keys` member of a shape-valid JWKS document. -/
def jwksKeys : JwksDoc → List JWK
  | JwksDoc.withKeys keys => keys
  | _ => []

/-- `TokenHandler.pickPublicKey` (token.ts lines 310-353). Note that the
second filter in the source (line 329) runs over the original `keys` array,
not over the alg-filtered set `_keys`; this definition reproduces that.
`jose.JWK.asKey` is external and abstracted as returning the selected key
itself. -/
def pickPublicKey (keys : List JWK) (kid : String) (alg : String) : Except Err JWK :=
  if keys.length == 0 then
    Except.error (invalidClientError "No usable keys found" 401)
  else
    let keysByAlg := keys.filter (fun k => k.alg == some alg)
    if keysByAlg.length == 0 then
      Except.error (invalidClientError
        ("None of the keys found in the JWKS alg equal to " ++ alg) 401)
    else
      let keysByKid := keys.filter (fun k => k.kid == some kid)
      if keysByKid.length == 0 then
        Except.error (invalidClientError
          ("None of the keys found in the JWKS kid equal to " ++ kid) 401)
      else if keysByKid.length > 1 then
        Except.error (invalidClientError "Multiple usable public keys found in the JWKS" 401)
      else
        match keysByKid with
        | k :: _ => Except.ok k
        | [] => Except.error (invalidClientError "No usable public key found in the JWKS" 401)

/-- A second definition following the spec words for the KeySelector
(section 4.5) and claim C1: the `kid` filter runs over the alg-filtered set
rather than over the original key list. Used only to contrast with
`pickPublicKey`. -/
def pickPublicKeySpec (keys : List JWK) (kid : String) (alg : String) : Except Err JWK :=
  let keysByAlg := keys.filter (fun k => k.alg == some alg)
  if keysByAlg.length == 0 then
    Except.error (invalidClientError
      ("None of the keys found in the JWKS alg equal to " ++ alg) 401)
  else
    let keysByKid := keysByAlg.filter (fun k => k.kid == some kid)
    if keysByKid.length == 0 then
      Except.error (invalidClientError
        ("None of the keys found in the JWKS kid equal to " ++ kid) 401)
    else if keysByKid.length > 1 then
      Except.error (invalidClientError "Multiple usable public keys found in the JWKS" 401)
    else
      match keysByKid with
      | k :: _ => Except.ok k
      | [] => Except.error (invalidClientError "No usable public key found in the JWKS" 401)

/-- The decoded header of a client-assertion JWT. -/
structure AssertionHeader where
  typ : Option String := none
  kid : Option String := none
  alg : Option String := none
  jku : Option String := none
deriving DecidableEq

/-- The decoded payload of a client-assertion JWT. -/
structure AssertionPayload where
  iss : Option String := none
  sub : Option String := none
  aud : Option String := none
  exp : Option Nat := none
  jti : Option String := none
deriving DecidableEq

/-- The `client_assertion` request parameter: either a string `jwt.decode`
cannot decode, or a decoded header and payload together with an oracle
telling whether `jwt.verify` accepts the assertion signature for a given
key under a given list of allowed algorithms. -/
inductive ClientAssertion
  | undecodable
  | decoded (header : AssertionHeader) (payload : AssertionPayload)
      (sigValid : JWK → List String → Bool)

/-- `aud.replace(/^https?/, "")`: strip a leading http or https scheme. -/
def stripScheme (s : String) : String :=
  if s.startsWith "https" then s.drop 5
  else if s.startsWith "http" then s.drop 4
  else s

/-- The JWKS resolution step of `validateClientAssertion` (token.ts lines
219-263): when a `jku` header is present it is checked against the client
registration `jwks_url` only if the latter is set, and the JWKS is then
fetched from the `jku`; otherwise the registered `jwks_url` is fetched, or
the inline `jwks` value is used, or the request fails. The second component
is the trace of fetch calls issued. -/
def resolveJwks (net : String → FetchOutcome) (client : AuthorizationToken)
    (header : AssertionHeader) : Except Err JwksDoc × List FetchCall :=
  if truthyStr header.jku then
    if truthyStr client.jwks_url && !(header.jku == client.jwks_url) then
      (Except.error (invalidClientError
        ("jku " ++ jsString header.jku ++ " not whitelisted. Allowed: " ++ jsString client.jwks_url) 401), [])
    else
      fetchJwks net (jsString header.jku)
  else
    if truthyStr client.jwks_url then
      fetchJwks net (jsString client.jwks_url)
    else if truthyJwks client.jwks then
      (match client.jwks with
       | some (JwksField.strVal _ (some doc)) => Except.ok doc
       | some (JwksField.strVal _ none) =>
           Except.error (invalidClientError "Invalid JWKS json" 401)
       | some (JwksField.objVal doc) => Except.ok doc
       | none => Except.error (invalidClientError "No JWKS or JWKS URL found for this client" 401), [])
    else
      (Except.error (invalidClientError "No JWKS or JWKS URL found for this client" 401), [])

/-- The POST request as seen by the handler: the urlencoded body fields,
the `Authorization` header, and the URL data used to compute the expected
`aud` value and the id-token issuer. String-valued token parameters
(`code`, `refresh_token`, `client_assertion`) are `none` when absent or
empty. -/
structure TokenRequest where
  grant_type : Option String := none
  code : Option SignedJwt := none
  redirect_uri : Option String := none
  code_verifier : Option String := none
  client_assertion : Option ClientAssertion := none
  client_assertion_type : Option String := none
  refresh_token : Option SignedJwt := none
  authorization : Option String := none
  baseUrl : String := ""
  originalUrl : String := ""
  routeBaseUrl : String := ""

/-- `TokenHandler.validateClientAssertion` (token.ts lines 144-274): the
RFC7523 claim and header checks, the simulated-error checks, the `iss`/`sub`
and `aud` comparisons, JWKS resolution and shape validation, key selection,
and the final signature verification (via the assertion's oracle). -/
def validateClientAssertion (net : String → FetchOutcome) (cfg : Config)
    (req : TokenRequest) (assertion : ClientAssertion)
    (client : AuthorizationToken) : Except Err Unit :=
  match assertion with
  | ClientAssertion.undecodable =>
      Except.error (invalidRequestError "Could not decode the client_assertion parameter" 401)
  | ClientAssertion.decoded header payload sigValid =>
    if !truthyStr payload.iss then
      Except.error (invalidClientError "Missing token iss claim" 401)
    else if !truthyStr payload.sub then
      Except.error (invalidClientError "Missing token sub claim" 401)
    else if !truthyStr payload.aud then
      Except.error (invalidClientError "Missing token aud claim" 401)
    else if !truthyNat payload.exp then
      Except.error (invalidClientError "Missing token exp claim" 401)
    else if !truthyStr payload.jti then
      Except.error (invalidClientError "Missing token jti claim" 401)
    else if header.typ ≠ some "JWT" then
      Except.error (invalidClientError "Invalid token typ header. Must be JWT." 401)
    else if !truthyStr header.kid then
      Except.error (invalidClientError "Missing token kid header" 401)
    else if !truthyStr header.alg then
      Except.error (invalidClientError "Missing token alg header" 401)
    else if client.auth_error = some "token_expired_registration_token" then
      Except.error (invalidClientError "Registration token expired" 401)
    else if client.auth_error = some "token_invalid_jti" then
      Except.error (invalidClientError "Simulated invalid jti value" 401)
    else if payload.iss ≠ payload.sub then
      Except.error (invalidClientError "The token sub does not match the token iss claim" 401)
    else if stripScheme (req.baseUrl ++ req.originalUrl) ≠ stripScheme (jsString payload.aud) then
      Except.error (invalidClientError "Invalid token aud value" 401)
    else
      match (resolveJwks net client header).1 with
      | Except.error e => Except.error e
      | Except.ok jwks =>
        match validateJwks jwks with
        | Except.error e => Except.error e
        | Except.ok _ =>
          match pickPublicKey (jwksKeys jwks) (jsString header.kid) (jsString header.alg) with
          | Except.error e => Except.error e
          | Except.ok key =>
            if sigValid key cfg.supportedAlgorithms then Except.ok ()
            else Except.error (invalidClientError "Invalid token." 401)

/-- The PKCE block of `handleAuthorizationCode` (token.ts lines 101-128):
runs only when the decoded token carries a (truthy) `code_challenge_method`;
the only supported method is the literal S256; the verifier is then
required, hashed and base64url-encoded, and compared with the stored
`code_challenge`. -/
def validatePkce (cp : CryptoPrims) (tok : AuthorizationToken)
    (code_verifier : Option String) : Except Err Unit :=
  if truthyStr tok.code_challenge_method then
    if tok.code_challenge_method ≠ some "S256" then
      Except.error (invalidRequestError "Unsupported code_challenge_method. We support only S256" 400)
    else if !truthyStr code_verifier then
      Except.error (invalidRequestError "Missing code_verifier parameter" 400)
    else if some (cp.sha256base64url (jsString code_verifier)) ≠ tok.code_challenge then
      Except.error (oauthError "Invalid grant or Invalid PKCE Verifier" "invalid_grant" 401)
    else
      Except.ok ()
  else
    Except.ok ()

/-- `authHeader.replace(/^basic\s*/i, "")` on a header that starts with the
scheme: drop the five scheme characters and any following whitespace. -/
def stripBasicScheme (s : String) : String :=
  (s.drop 5).dropWhile (fun c => c.isWhitespace)

/-- `TokenHandler.validateBasicAuth` (token.ts lines 374-412). A request
without an `Authorization` header, or with one that does not start with the
Basic scheme (case-insensitive), is allowed only for tokens without a
(truthy) `client_secret`. -/
def validateBasicAuth (cp : CryptoPrims) (req : TokenRequest)
    (tok : AuthorizationToken) : Except Err Unit :=
  if tok.auth_error = some "auth_invalid_client_secret" then
    Except.error (invalidClientError "Simulated invalid client secret error" 401)
  else
    match req.authorization with
    | none =>
        if truthyStr tok.client_secret then
          Except.error (invalidRequestError "Basic authentication is required for confidential clients" 401)
        else
          Except.ok ()
    | some authHeader =>
        if !(authHeader.toLower.startsWith "basic") then
          if truthyStr tok.client_secret then
            Except.error (invalidRequestError "Basic authentication is required for confidential clients" 401)
          else
            Except.ok ()
        else
          let auth := stripBasicScheme authHeader
          if auth == "" then
            Except.error (invalidRequestError "The authorization header cannot be empty" 401)
          else
            let parts := (cp.base64decode auth).splitOn ":"
            if parts.length ≠ 2 then
              Except.error (invalidRequestError "The decoded header must contain a client id and a client secret separated by a colon" 401)
            else if truthyStr tok.client_id && !(tok.client_id == parts.head?) then
              Except.error (invalidClientError "Invalid client_id in the basic auth header" 401)
            else if tok.client_secret ≠ parts[1]? then
              Except.error (invalidClientError "Invalid client_secret in the basic auth header" 401)
            else
              Except.ok ()

/-- One more derivation: claims recorded inside the freshly signed
`access_token` response value (token.ts lines 507-516). -/
structure AccessTokenClaims where
  scope : Option String
  jwks_url : Option String
  jwks : Option JwksField
  code_challenge_method : Option String
  code_challenge : Option String
  client_secret : Option String
  nonce : Option String
  auth_error : Option String
deriving DecidableEq

/-- Claims of the OpenID Connect id token built by `createIdToken`
(token.ts lines 419-442). -/
structure IdTokenClaims where
  profile : Option String
  fhirUser : Option String
  aud : Option String
  sub : String
  iss : String
deriving DecidableEq

/-- A JSON value appearing in the response object: the JavaScript
`undefined` (dropped by `res.json`), a string, a number, a context value
copied by the spread, or one of the three signed tokens. -/
inductive JVal
  | undef
  | str (s : String)
  | num (n : Nat)
  | ctx (v : CtxVal)
  | idTok (claims : IdTokenClaims) (key : String) (expiresInMinutes : Nat)
  | refreshTok (t : SignedJwt)
  | accessTok (claims : AccessTokenClaims) (key : String) (expiresInSeconds : Nat)
deriving DecidableEq

/-- A JavaScript object: an ordered list of distinct keys with values. -/
abbrev JsObject := List (String × JVal)

/-- JavaScript property assignment `o[k] = v`: replace the value in place
when the key exists, append otherwise. -/
def objSet : JsObject → String → JVal → JsObject
  | [], k, v => [(k, v)]
  | (k0, v0) :: rest, k, v =>
      if k0 == k then (k0, v) :: rest else (k0, v0) :: objSet rest k v

/-- Property lookup. -/
def objGet (o : JsObject) (k : String) : Option JVal :=
  (o.find? (fun p => p.1 == k)).map Prod.snd

/-- The object spread `{ ...fields, ...context }`: each context entry is
assigned in order, overriding earlier keys. -/
def spreadContext (o : JsObject) (ctx : List (String × CtxVal)) : JsObject :=
  ctx.foldl (fun acc p => objSet acc p.1 (JVal.ctx p.2)) o

/-- Whether `res.json` serializes the key: present with a value other than
`undefined`. -/
def includedInJson (o : JsObject) (k : String) : Bool :=
  match objGet o k with
  | some JVal.undef => false
  | some _ => true
  | none => false

/-- `TokenHandler.createIdToken` (token.ts lines 419-442), as the response
value: the claims, the asymmetric signing key, and the expiry option
`accessTokensExpireIn || 60` minutes. -/
def createIdToken (cp : CryptoPrims) (cfg : Config) (req : TokenRequest)
    (tok : AuthorizationToken) : JVal :=
  JVal.idTok
    { profile := tok.user
      fhirUser := tok.user
      aud := tok.client_id
      sub := cp.sha256hex (jsString tok.user)
      iss := req.baseUrl ++ req.routeBaseUrl ++ "/fhir" }
    cfg.privateKeyAsPem
    (if truthyNat tok.accessTokensExpireIn then tok.accessTokensExpireIn.getD 0 else 60)

/-- `TokenHandler.generateRefreshToken` (token.ts lines 444-457): only the
claims `context`, `scope`, `user` and `auth_error` are copied into the new
token, which is signed with the symmetric secret and expires after the
configured refresh-token lifetime (minutes, converted to seconds). -/
def generateRefreshToken (cfg : Config) (code : AuthorizationToken) : SignedJwt :=
  SignedJwt.signed
    { context := code.context
      scope := code.scope
      user := code.user
      auth_error := code.auth_error }
    cfg.jwtSecret
    (some (cfg.refreshTokenLifeTime * 60))

/-- The `expiresIn` computation of `finish` (token.ts lines 476-478):
`accessTokensExpireIn * 60` when that field is truthy, otherwise
`config.accessTokenLifetime * 60`. -/
def finishExpiresIn (cfg : Config) (tok : AuthorizationToken) : Nat :=
  if truthyNat tok.accessTokensExpireIn then (tok.accessTokensExpireIn.getD 0) * 60
  else cfg.accessTokenLifetime * 60

/-- The decoded scope string handed to `ScopeSet` in `finish`
(token.ts line 474). -/
def finishScope (cp : CryptoPrims) (tok : AuthorizationToken) : String :=
  cp.urlDecode (jsString tok.scope)

/-- The object literal of `finish` (token.ts lines 480-492) before the
context spread. -/
def finishBase (cp : CryptoPrims) (cfg : Config) (req : TokenRequest)
    (tok : AuthorizationToken) : JsObject :=
  [ ("access_token", JVal.str "")
  , ("token_type", JVal.str "Bearer")
  , ("expires_in", JVal.num (finishExpiresIn cfg tok))
  , ("scope", match tok.scope with
      | none => JVal.undef
      | some s => JVal.str s)
  , ("id_token",
      if truthyStr tok.user && scopeHas (finishScope cp tok) "openid" &&
          (scopeHas (finishScope cp tok) "profile" || scopeHas (finishScope cp tok) "fhirUser") then
        createIdToken cp cfg req tok
      else JVal.undef)
  , ("refresh_token",
      if scopeHas (finishScope cp tok) "offline_access" || scopeHas (finishScope cp tok) "online_access" then
        JVal.refreshTok (generateRefreshToken cfg tok)
      else JVal.undef) ]

/-- The `sim_error` injection of `finish` (token.ts lines 494-504). -/
def finishSimError (o : JsObject) (tok : AuthorizationToken) : JsObject :=
  if tok.auth_error = some "request_invalid_token" then
    objSet o "sim_error" (JVal.str "Invalid token")
  else if tok.auth_error = some "request_expired_token" then
    objSet o "sim_error" (JVal.str "Token expired")
  else o

/-- The freshly signed `access_token` value assigned last by `finish`
(token.ts lines 506-516). -/
def finishAccessToken (cfg : Config) (tok : AuthorizationToken) : JVal :=
  JVal.accessTok
    { scope := tok.scope
      jwks_url := tok.jwks_url
      jwks := tok.jwks
      code_challenge_method := tok.code_challenge_method
      code_challenge := tok.code_challenge
      client_secret := tok.client_secret
      nonce := tok.nonce
      auth_error := tok.auth_error }
    cfg.jwtSecret
    (finishExpiresIn cfg tok)

/-- The response sent by `finish`: headers and the JSON body. -/
structure HandlerResponse where
  headers : List (String × String)
  body : JsObject
deriving DecidableEq

/-- `TokenHandler.finish` (token.ts lines 462-524): basic-auth validation,
the `token_invalid_token` fault injection, then the response object:
literal fields, context spread, `sim_error` injection, and finally the
assignment of the freshly signed `access_token`. -/
def finish (cp : CryptoPrims) (cfg : Config) (req : TokenRequest)
    (tok : AuthorizationToken) : Except Err HandlerResponse :=
  match validateBasicAuth cp req tok with
  | Except.error e => Except.error e
  | Except.ok _ =>
    if tok.auth_error = some "token_invalid_token" then
      Except.error (invalidClientError "Simulated invalid client error" 401)
    else
      Except.ok
        { headers := [("Cache-Control", "no-store"), ("Pragma", "no-cache")]
          body := objSet
            (finishSimError (spreadContext (finishBase cp cfg req tok) tok.context) tok)
            "access_token" (finishAccessToken cfg tok) }

/-- `TokenHandler.handleAuthorizationCode` (token.ts lines 63-136). -/
def handleAuthorizationCode (cp : CryptoPrims) (cfg : Config)
    (net : String → FetchOutcome) (req : TokenRequest) : Except Err HandlerResponse :=
  if req.code.isNone then
    Except.error (invalidClientError "Missing code parameter" 400)
  else if !truthyStr req.redirect_uri then
    Except.error (invalidRequestError "Missing redirect_uri parameter" 400)
  else
    match jwtVerify cfg.jwtSecret req.code with
    | Except.error msg =>
        Except.error (invalidClientError
          ("Invalid token (supplied as code parameter in the POST body). " ++ msg) 401)
    | Except.ok authorizationToken =>
      if !truthyStr authorizationToken.redirect_uri then
        Except.error (invalidClientError "The authorization token must include redirect_uri" 401)
      else if authorizationToken.redirect_uri ≠ req.redirect_uri then
        Except.error (invalidRequestError "Invalid redirect_uri parameter" 401)
      else
        match validatePkce cp authorizationToken req.code_verifier with
        | Except.error e => Except.error e
        | Except.ok _ =>
          match req.client_assertion with
          | some assertion =>
            if req.client_assertion_type = some "urn:ietf:params:oauth:client-assertion-type:jwt-bearer" then
              match validateClientAssertion net cfg req assertion authorizationToken with
              | Except.error e => Except.error e
              | Except.ok _ => finish cp cfg req authorizationToken
            else
              finish cp cfg req authorizationToken
          | none => finish cp cfg req authorizationToken

/-- The validation part of `TokenHandler.handleRefreshToken` (token.ts
lines 360-372): verify the refresh token with the symmetric secret, then
apply the `token_expired_refresh_token` fault injection; the resulting
token is the one handed to `finish`. -/
def handleRefreshTokenValidate (cfg : Config) (refresh_token : Option SignedJwt) :
    Except Err AuthorizationToken :=
  match jwtVerify cfg.jwtSecret refresh_token with
  | Except.error _ => Except.error (oauthError "Invalid refresh token" "invalid_grant" 401)
  | Except.ok token =>
    if token.auth_error = some "token_expired_refresh_token" then
      Except.error (oauthError "Expired refresh token" "invalid_grant" 403)
    else
      Except.ok token

/-- `TokenHandler.handleRefreshToken` (token.ts lines 360-372). -/
def handleRefreshToken (cp : CryptoPrims) (cfg : Config) (req : TokenRequest) :
    Except Err HandlerResponse :=
  match handleRefreshTokenValidate cfg req.refresh_token with
  | Except.error e => Except.error e
  | Except.ok token => finish cp cfg req token

/-- `TokenHandler.handle` (token.ts lines 42-57): grant dispatch. -/
def handle (cp : CryptoPrims) (cfg : Config) (net : String → FetchOutcome)
    (req : TokenRequest) : Except Err HandlerResponse :=
  match req.grant_type with
  | some "authorization_code" => handleAuthorizationCode cp cfg net req
  | some "refresh_token" => handleRefreshToken cp cfg req
  | _ => Except.error (oauthError "Invalid or missing grant_type parameter" "unsupported_grant_type" 400)

/-! Concrete sample data used to instantiate hypothesis-bearing theorems. -/

/-- Sample crypto oracles: symbolic hashing, identity decoding. -/
def cpW : CryptoPrims :=
  { sha256base64url := fun s => "B64URL-SHA256:" ++ s
    sha256hex := fun s => "HEXSHA256:" ++ s
    urlDecode := id
    base64decode := id }

/-- Sample configuration. -/
def cfgW : Config :=
  { jwtSecret := "secret"
    privateKeyAsPem := "private-key-pem"
    supportedAlgorithms := ["RS256", "RS384", "RS512", "ES256", "ES384", "ES512"]
    accessTokenLifetime := 100
    refreshTokenLifeTime := 60 }

/-- Sample network oracle: every URL is unreachable. -/
def netDown : String → FetchOutcome := fun _ => FetchOutcome.transportError "connection refused"

/-- A request with no parameters set. -/
def emptyReq : TokenRequest := {}

/-! Lemmas about the JavaScript object model. -/

theorem objGet_objSet_self (o : JsObject) (k : String) (v : JVal) :
    objGet (objSet o k v) k = some v := by
  induction o with
  | nil => simp [objSet, objGet, List.find?]
  | cons p rest ih =>
    obtain ⟨k0, v0⟩ := p
    by_cases h : (k0 == k) = true
    · simp [objSet, objGet, List.find?, h]
    · simp only [objSet, h, Bool.false_eq_true, if_false]
      simpa [objGet, List.find?, h] using ih

theorem objGet_objSet_ne (o : JsObject) (a b : String) (v : JVal) (h : a ≠ b) :
    objGet (objSet o a v) b = objGet o b := by
  have hab : (a == b) = false := by simpa using h
  induction o with
  | nil => simp [objSet, objGet, List.find?, hab]
  | cons p rest ih =>
    obtain ⟨k0, v0⟩ := p
    by_cases h0 : (k0 == a) = true
    · have hk : k0 = a := by simpa using h0
      subst hk
      simp [objSet, objGet, List.find?, hab]
    · simp only [objSet, h0, Bool.false_eq_true, if_false]
      by_cases h1 : (k0 == b) = true
      · simp [objGet, List.find?, h1]
      · simpa [objGet, List.find?, h1] using ih

theorem objGet_spreadContext (ctx : List (String × CtxVal)) :
    ∀ (o : JsObject) (k : String), (∀ p ∈ ctx, p.1 ≠ k) →
      objGet (spreadContext o ctx) k = objGet o k := by
  induction ctx with
  | nil => intro o k _; rfl
  | cons p rest ih =>
    intro o k h
    have h1 : p.1 ≠ k := h p (List.mem_cons_self p rest)
    have h2 : spreadContext o (p :: rest) = spreadContext (objSet o p.1 (JVal.ctx p.2)) rest := rfl
    rw [h2, ih _ k (fun q hq => h q (List.mem_cons_of_mem p hq)),
      objGet_objSet_ne o p.1 k (JVal.ctx p.2) h1]

theorem objGet_finishSimError (o : JsObject) (tok : AuthorizationToken) (k : String)
    (h : k ≠ "sim_error") :
    objGet (finishSimError o tok) k = objGet o k := by
  unfold finishSimError
  by_cases h1 : tok.auth_error = some "request_invalid_token"
  · rw [if_pos h1, objGet_objSet_ne o "sim_error" k _ (Ne.symm h)]
  · rw [if_neg h1]
    by_cases h2 : tok.auth_error = some "request_expired_token"
    · rw [if_pos h2, objGet_objSet_ne o "sim_error" k _ (Ne.symm h)]
    · rw [if_neg h2]

/-- The body of every successful `finish` response is the literal object,
spread with the context, with `sim_error` possibly injected, and with
`access_token` assigned last. -/
theorem finish_ok_body (cp : CryptoPrims) (cfg : Config) (req : TokenRequest)
    (tok : AuthorizationToken) (resp : HandlerResponse)
    (h : finish cp cfg req tok = Except.ok resp) :
    resp.body = objSet
      (finishSimError (spreadContext (finishBase cp cfg req tok) tok.context) tok)
      "access_token" (finishAccessToken cfg tok) := by
  unfold finish at h
  cases hb : validateBasicAuth cp req tok <;> rw [hb] at h <;> simp only [] at h
  · cases h
  · by_cases ht : tok.auth_error = some "token_invalid_token"
    · rw [if_pos ht] at h; cases h
    · rw [if_neg ht] at h
      simp only [Except.ok.injEq] at h
      rw [← h]

/-! Claim theorems. -/

/-- Claim C1 (code bug): on the JWKS holding exactly one key with the
requested pair (alg RS256, kid a) plus a second key sharing kid a under alg
ES384, `pickPublicKey` fails with the ambiguity `InvalidClientError` 401
instead of selecting the unique match: the kid filter in the source
(token.ts line 329) scans the original `keys` array rather than the
alg-filtered set `_keys`. The spec-faithful `pickPublicKeySpec` selects the
unique (RS256, a) key on the same input. -/
theorem pickPublicKey_kid_filter_bug :
    pickPublicKey [⟨some "a", some "RS256"⟩, ⟨some "a", some "ES384"⟩] "a" "RS256" =
      Except.error (invalidClientError "Multiple usable public keys found in the JWKS" 401)
    ∧ pickPublicKeySpec [⟨some "a", some "RS256"⟩, ⟨some "a", some "ES384"⟩] "a" "RS256" =
      Except.ok ⟨some "a", some "RS256"⟩ :=
  ⟨rfl, rfl⟩

/-- Claim C2: for every authorization token `t`, the refresh token produced
by `generateRefreshToken` and then verified by the refresh-token path (the
`jwt.verify` call of `handleRefreshToken`) yields exactly the claims
context, scope, user and auth_error of `t` and no other claims: the result
is the token record with precisely those four fields copied and every other
field absent. Moreover, unless the `token_expired_refresh_token` fault
injection aborts the request afterwards, that same record is the token the
refresh path hands to `finish`. -/
theorem refresh_token_roundtrip (cfg : Config) (t : AuthorizationToken) :
    jwtVerify cfg.jwtSecret (some (generateRefreshToken cfg t)) =
      Except.ok { context := t.context, scope := t.scope, user := t.user, auth_error := t.auth_error }
    ∧ (t.auth_error ≠ some "token_expired_refresh_token" →
      handleRefreshTokenValidate cfg (some (generateRefreshToken cfg t)) =
        Except.ok { context := t.context, scope := t.scope, user := t.user, auth_error := t.auth_error }) := by
  constructor
  · simp [generateRefreshToken, jwtVerify]
  · intro h
    simp [handleRefreshTokenValidate, generateRefreshToken, jwtVerify, h]

/-- Sample token for the C2 witness; its `client_id` and `redirect_uri` are
dropped by the refresh-token round trip. -/
def tokC2 : AuthorizationToken :=
  { redirect_uri := some "https://app.example.com/cb"
    client_id := some "my-client"
    scope := some "offline_access"
    user := some "Patient/123"
    context := [("need_patient_banner", CtxVal.str "true")] }

/-- Witness for C2 at a concrete token. -/
theorem refresh_token_roundtrip_witness :
    handleRefreshTokenValidate cfgW (some (generateRefreshToken cfgW tokC2)) =
      Except.ok { context := tokC2.context, scope := tokC2.scope, user := tokC2.user,
                  auth_error := tokC2.auth_error } :=
  (refresh_token_roundtrip cfgW tokC2).2 (by decide)

/-- Claim C8: every JWKS fetch issues exactly one call, carrying the
`accept: application/json` header; a transport failure or a non-success
HTTP status (and even a non-JSON success body) is wrapped into an
`InvalidClientError` with status 401, and only a success response with a
JSON body succeeds — the failure is never surfaced as a server error and
the call is never retried. -/
theorem fetchJwks_single_call_client_errors (net : String → FetchOutcome) (url : String) :
    (fetchJwks net url).2 = [⟨url, "application/json"⟩]
    ∧ (∀ msg, net url = FetchOutcome.transportError msg →
      (fetchJwks net url).1 = Except.error (invalidClientError
        ("Failed to fetch JWKS from " ++ url ++ ". " ++ msg) 401))
    ∧ (∀ status statusText body, net url = FetchOutcome.response false status statusText body →
      (fetchJwks net url).1 = Except.error (invalidClientError
        ("Failed to fetch JWKS from " ++ url ++ ". " ++ toString status ++ " " ++ statusText) 401))
    ∧ (∀ status statusText, net url = FetchOutcome.response true status statusText none →
      (fetchJwks net url).1 = Except.error (invalidClientError
        ("Failed to fetch JWKS from " ++ url ++ ". invalid json response body") 401))
    ∧ (∀ status statusText doc, net url = FetchOutcome.response true status statusText (some doc) →
      (fetchJwks net url).1 = Except.ok doc) := by
  refine ⟨rfl, ?_, ?_, ?_, ?_⟩
  · intro msg h; simp [fetchJwks, h]
  · intro status statusText body h; simp [fetchJwks, h]
  · intro status statusText h; simp [fetchJwks, h]
  · intro status statusText doc h; simp [fetchJwks, h]

/-- Witness for C8 at a concrete unreachable URL. -/
theorem fetchJwks_single_call_client_errors_witness :
    (fetchJwks netDown "https://keys.example.com/jwks.json").2 =
      [⟨"https://keys.example.com/jwks.json", "application/json"⟩]
    ∧ (fetchJwks netDown "https://keys.example.com/jwks.json").1 =
      Except.error (invalidClientError
        "Failed to fetch JWKS from https://keys.example.com/jwks.json. connection refused" 401) :=
  ⟨(fetchJwks_single_call_client_errors netDown "https://keys.example.com/jwks.json").1,
   (fetchJwks_single_call_client_errors netDown "https://keys.example.com/jwks.json").2.1
     "connection refused" rfl⟩

/-- Claim C10: when the client token has no (truthy) registered `jwks_url`,
a client assertion carrying any non-empty `jku` header passes the whitelist
step, and the JWKS is fetched from that client-supplied `jku` URL: the
resolution step equals a plain fetch of the `jku`, whose trace shows the
single call to that URL. -/
theorem resolveJwks_jku_without_registered_url (net : String → FetchOutcome)
    (client : AuthorizationToken) (header : AssertionHeader) (jku : String)
    (h1 : truthyStr client.jwks_url = false)
    (h2 : header.jku = some jku) (h3 : jku ≠ "") :
    resolveJwks net client header = fetchJwks net jku
    ∧ (resolveJwks net client header).2 = [⟨jku, "application/json"⟩] := by
  have ht : truthyStr (some jku) = true := by
    simp [truthyStr]; exact h3
  have e1 : resolveJwks net client header = fetchJwks net jku := by
    simp [resolveJwks, h2, ht, h1, jsString]
  exact ⟨e1, by rw [e1]; rfl⟩

/-- Sample assertion header for the C10 witness. -/
def headerC10 : AssertionHeader :=
  { typ := some "JWT", kid := some "k1", alg := some "RS256"
    jku := some "https://attacker.example.com/jwks.json" }

/-- Sample client token for the C10 witness: registered with an inline JWKS
but no `jwks_url`. -/
def clientC10 : AuthorizationToken :=
  { client_id := some "my-client"
    jwks := some (JwksField.objVal (JwksDoc.withKeys [⟨some "k1", some "RS256"⟩])) }

/-- Witness for C10: with no registered `jwks_url`, the JWKS is fetched from
the client-supplied `jku`. -/
theorem resolveJwks_jku_without_registered_url_witness :
    resolveJwks netDown clientC10 headerC10 =
      fetchJwks netDown "https://attacker.example.com/jwks.json"
    ∧ (resolveJwks netDown clientC10 headerC10).2 =
      [⟨"https://attacker.example.com/jwks.json", "application/json"⟩] :=
  resolveJwks_jku_without_registered_url netDown clientC10 headerC10
    "https://attacker.example.com/jwks.json" (by decide) rfl (by decide)

/-- Claim C3: whenever the decoded code token carries a (truthy)
`code_challenge_method`, a method other than the literal S256 is rejected
with `InvalidRequestError` 400 before the verifier is even looked at
(the conclusion holds for every verifier); with method S256 a missing
verifier fails with `InvalidRequestError` 400; otherwise, for every
verifier V, validation succeeds iff base64url(sha256(V)) equals the stored
`code_challenge`, and a mismatch fails with the `OAuthError` carrying
error-id invalid_grant and status 401. -/
theorem pkce_validation (cp : CryptoPrims) (tok : AuthorizationToken) (cv : Option String) :
    (truthyStr tok.code_challenge_method = true →
      tok.code_challenge_method ≠ some "S256" →
      validatePkce cp tok cv = Except.error
        (invalidRequestError "Unsupported code_challenge_method. We support only S256" 400))
    ∧ (tok.code_challenge_method = some "S256" → truthyStr cv = false →
      validatePkce cp tok cv = Except.error
        (invalidRequestError "Missing code_verifier parameter" 400))
    ∧ (∀ v : String, tok.code_challenge_method = some "S256" → cv = some v → v ≠ "" →
      ((validatePkce cp tok cv = Except.ok () ↔
          tok.code_challenge = some (cp.sha256base64url v))
        ∧ (tok.code_challenge ≠ some (cp.sha256base64url v) →
          validatePkce cp tok cv = Except.error
            (oauthError "Invalid grant or Invalid PKCE Verifier" "invalid_grant" 401)))) := by
  refine ⟨?_, ?_, ?_⟩
  · intro h1 h2
    simp [validatePkce, h1, h2]
  · intro h1 h2
    simp [validatePkce, h1, h2]
    rfl
  · intro v h1 h2 h3
    have hv : truthyStr cv = true := by rw [h2]; simp [truthyStr]; exact h3
    have ht1 : truthyStr tok.code_challenge_method = true := by rw [h1]; rfl
    have hval : validatePkce cp tok cv =
        (if some (cp.sha256base64url v) ≠ tok.code_challenge then
          Except.error (oauthError "Invalid grant or Invalid PKCE Verifier" "invalid_grant" 401)
        else Except.ok ()) := by
      unfold validatePkce
      rw [if_pos ht1, if_neg (by simp [h1] : ¬(tok.code_challenge_method ≠ some "S256")),
        if_neg (by simp [hv] : ¬((!truthyStr cv) = true)), h2]
      rfl
    constructor
    · constructor
      · intro hok
        by_cases hc : some (cp.sha256base64url v) = tok.code_challenge
        · exact hc.symm
        · rw [hval, if_pos hc] at hok
          cases hok
      · intro hc
        rw [hval, if_neg (not_not_intro hc.symm)]
    · intro hcm
      rw [hval, if_pos (fun he => hcm he.symm)]

/-- Sample verifier and token for the C3 witness: the stored challenge is
the oracle hash of the verifier, so validation succeeds. -/
def tokC3 : AuthorizationToken :=
  { code_challenge_method := some "S256"
    code_challenge := some "B64URL-SHA256:correct-verifier" }

/-- Witness for C3 at a concrete matching verifier. -/
theorem pkce_validation_witness :
    validatePkce cpW tokC3 (some "correct-verifier") = Except.ok () :=
  ((pkce_validation cpW tokC3 (some "correct-verifier")).2.2
    "correct-verifier" rfl rfl (by decide)).1.mpr rfl

/-- Claim C5: the `handleAuthorizationCode` checks run in a fixed fail-fast
order, each conjunct below assuming only that the earlier checks passed and
quantifying over everything a later check would look at: a missing `code`
fails with `InvalidClientError` 400; then a missing `redirect_uri`
parameter fails with `InvalidRequestError` 400; then a `code` that does not
verify fails with `InvalidClientError` 401; then a decoded token lacking a
(truthy) `redirect_uri` fails with `InvalidClientError` 401 regardless of
its other field values; then a token `redirect_uri` different from the
request parameter fails with `InvalidRequestError` 401. -/
theorem auth_code_check_order (cp : CryptoPrims) (cfg : Config)
    (net : String → FetchOutcome) (req : TokenRequest) :
    (req.code = none →
      handleAuthorizationCode cp cfg net req = Except.error
        (invalidClientError "Missing code parameter" 400))
    ∧ (∀ c, req.code = some c → truthyStr req.redirect_uri = false →
      handleAuthorizationCode cp cfg net req = Except.error
        (invalidRequestError "Missing redirect_uri parameter" 400))
    ∧ (∀ c msg, req.code = some c → truthyStr req.redirect_uri = true →
      jwtVerify cfg.jwtSecret req.code = Except.error msg →
      handleAuthorizationCode cp cfg net req = Except.error
        (invalidClientError ("Invalid token (supplied as code parameter in the POST body). " ++ msg) 401))
    ∧ (∀ c tok, req.code = some c → truthyStr req.redirect_uri = true →
      jwtVerify cfg.jwtSecret req.code = Except.ok tok →
      truthyStr tok.redirect_uri = false →
      handleAuthorizationCode cp cfg net req = Except.error
        (invalidClientError "The authorization token must include redirect_uri" 401))
    ∧ (∀ c tok, req.code = some c → truthyStr req.redirect_uri = true →
      jwtVerify cfg.jwtSecret req.code = Except.ok tok →
      truthyStr tok.redirect_uri = true →
      tok.redirect_uri ≠ req.redirect_uri →
      handleAuthorizationCode cp cfg net req = Except.error
        (invalidRequestError "Invalid redirect_uri parameter" 401)) := by
  refine ⟨?_, ?_, ?_, ?_, ?_⟩
  · intro h1
    simp [handleAuthorizationCode, h1]
  · intro c h1 h2
    simp [handleAuthorizationCode, h1, h2]
  · intro c msg h1 h2 hv
    rw [h1] at hv
    simp [handleAuthorizationCode, h1, h2, hv]
  · intro c tok h1 h2 hv h3
    rw [h1] at hv
    simp [handleAuthorizationCode, h1, h2, hv, h3]
  · intro c tok h1 h2 hv h3 h4
    rw [h1] at hv
    simp [handleAuthorizationCode, h1, h2, hv, h3, h4]

/-- Sample decoded token for the C5 witness requests. -/
def tokC5 : AuthorizationToken :=
  { redirect_uri := some "https://other.example.com/cb", scope := some "" }

/-- Witness for C5: each of the five ordered checks fired at a concrete
request. -/
theorem auth_code_check_order_witness :
    handleAuthorizationCode cpW cfgW netDown emptyReq = Except.error
      (invalidClientError "Missing code parameter" 400)
    ∧ handleAuthorizationCode cpW cfgW netDown { code := some SignedJwt.malformed } =
      Except.error (invalidRequestError "Missing redirect_uri parameter" 400)
    ∧ handleAuthorizationCode cpW cfgW netDown
        { code := some SignedJwt.malformed, redirect_uri := some "https://app.example.com/cb" } =
      Except.error (invalidClientError
        "Invalid token (supplied as code parameter in the POST body). jwt malformed" 401)
    ∧ handleAuthorizationCode cpW cfgW netDown
        { code := some (SignedJwt.signed {} "secret" none),
          redirect_uri := some "https://app.example.com/cb" } =
      Except.error (invalidClientError "The authorization token must include redirect_uri" 401)
    ∧ handleAuthorizationCode cpW cfgW netDown
        { code := some (SignedJwt.signed tokC5 "secret" none),
          redirect_uri := some "https://app.example.com/cb" } =
      Except.error (invalidRequestError "Invalid redirect_uri parameter" 401) :=
  ⟨(auth_code_check_order cpW cfgW netDown emptyReq).1 rfl,
   (auth_code_check_order cpW cfgW netDown { code := some SignedJwt.malformed }).2.1
     SignedJwt.malformed rfl rfl,
   (auth_code_check_order cpW cfgW netDown
       { code := some SignedJwt.malformed, redirect_uri := some "https://app.example.com/cb" }).2.2.1
     SignedJwt.malformed "jwt malformed" rfl rfl rfl,
   (auth_code_check_order cpW cfgW netDown
       { code := some (SignedJwt.signed {} "secret" none),
         redirect_uri := some "https://app.example.com/cb" }).2.2.2.1
     (SignedJwt.signed {} "secret" none) {} rfl rfl rfl rfl,
   (auth_code_check_order cpW cfgW netDown
       { code := some (SignedJwt.signed tokC5 "secret" none),
         redirect_uri := some "https://app.example.com/cb" }).2.2.2.2
     (SignedJwt.signed tokC5 "secret" none) tokC5 rfl rfl rfl rfl (by decide)⟩

/-! Field lookups on the literal response object built by `finish`. -/

theorem objGet_finishBase_expires_in (cp : CryptoPrims) (cfg : Config) (req : TokenRequest)
    (tok : AuthorizationToken) :
    objGet (finishBase cp cfg req tok) "expires_in" =
      some (JVal.num (finishExpiresIn cfg tok)) := rfl

theorem objGet_finishBase_id_token (cp : CryptoPrims) (cfg : Config) (req : TokenRequest)
    (tok : AuthorizationToken) :
    objGet (finishBase cp cfg req tok) "id_token" =
      some (if truthyStr tok.user && scopeHas (finishScope cp tok) "openid" &&
          (scopeHas (finishScope cp tok) "profile" || scopeHas (finishScope cp tok) "fhirUser") then
        createIdToken cp cfg req tok
      else JVal.undef) := rfl

theorem objGet_finishBase_refresh_token (cp : CryptoPrims) (cfg : Config) (req : TokenRequest)
    (tok : AuthorizationToken) :
    objGet (finishBase cp cfg req tok) "refresh_token" =
      some (if scopeHas (finishScope cp tok) "offline_access" ||
          scopeHas (finishScope cp tok) "online_access" then
        JVal.refreshTok (generateRefreshToken cfg tok)
      else JVal.undef) := rfl

/-- Claim C4 counterexample: with the spec-modelled configuration exposing
a default access-token lifetime of 100 (the spec says the provider exposes
it in seconds) and a token without `accessTokensExpireIn`, the successful
response carries `expires_in` 6000, not the configured value 100: the
source multiplies the configured lifetime by 60 (token.ts line 478). -/
def tokC4 : AuthorizationToken := { scope := some "" }

/-- Claim C4 counterexample (see `tokC4`). -/
theorem expires_in_counterexample :
    Except.map (fun r => objGet r.body "expires_in") (finish cpW cfgW emptyReq tokC4) =
      Except.ok (some (JVal.num 6000))
    ∧ tokC4.accessTokensExpireIn = none
    ∧ cfgW.accessTokenLifetime = 100
    ∧ (6000 : Nat) ≠ 100 :=
  ⟨rfl, rfl, rfl, by decide⟩

/-- Claim C4 as amended: in every successful response whose token context
does not itself override `expires_in`, the `expires_in` value equals
`accessTokensExpireIn * 60` when that field is present (non-zero), and
otherwise equals 60 times the configured default access-token lifetime
value (the source treats the configured value as minutes). -/
theorem expires_in_formula (cp : CryptoPrims) (cfg : Config) (req : TokenRequest)
    (tok : AuthorizationToken) (resp : HandlerResponse)
    (h : finish cp cfg req tok = Except.ok resp)
    (hctx : ∀ p ∈ tok.context, p.1 ≠ "expires_in") :
    objGet resp.body "expires_in" = some (JVal.num
      (if truthyNat tok.accessTokensExpireIn then (tok.accessTokensExpireIn.getD 0) * 60
       else cfg.accessTokenLifetime * 60)) := by
  rw [finish_ok_body cp cfg req tok resp h,
    objGet_objSet_ne _ "access_token" "expires_in" _ (by decide),
    objGet_finishSimError _ _ _ (by decide),
    objGet_spreadContext tok.context _ _ hctx,
    objGet_finishBase_expires_in]
  rfl

/-- Witness for C4 (amended): a token with `accessTokensExpireIn` 5 gets
`expires_in` 300. -/
theorem expires_in_formula_witness :
    objGet ((finish cpW cfgW emptyReq
        { scope := some "", accessTokensExpireIn := some 5 }).toOption.getD ⟨[], []⟩).body
      "expires_in" = some (JVal.num 300) :=
  expires_in_formula cpW cfgW emptyReq { scope := some "", accessTokensExpireIn := some 5 }
    ((finish cpW cfgW emptyReq { scope := some "", accessTokensExpireIn := some 5 }).toOption.getD ⟨[], []⟩)
    rfl (by decide)

/-- Claim C6 counterexample: a token whose context supplies an `id_token`
entry produces a successful response that includes `id_token` even though
the token has no user (and no openid scope), so the inclusion rule as
stated does not hold for every token: the context spread (token.ts line
491) can override the gated fields. -/
def tokC6bad : AuthorizationToken :=
  { scope := some "", context := [("id_token", CtxVal.str "spoofed")] }

/-- Claim C6 counterexample (see `tokC6bad`). -/
theorem id_token_gating_counterexample :
    Except.map (fun r => includedInJson r.body "id_token") (finish cpW cfgW emptyReq tokC6bad) =
      Except.ok true
    ∧ truthyStr tokC6bad.user = false
    ∧ scopeHas (finishScope cpW tokC6bad) "openid" = false :=
  ⟨rfl, rfl, rfl⟩

/-- Claim C6 as amended: in every successful response whose token context
does not itself supply an `id_token` or `refresh_token` entry, `id_token`
is included iff the user is present and the parsed scope set contains
openid and contains profile or fhirUser, and `refresh_token` is included
iff the scope set contains offline_access or online_access. -/
theorem scope_gating (cp : CryptoPrims) (cfg : Config) (req : TokenRequest)
    (tok : AuthorizationToken) (resp : HandlerResponse)
    (h : finish cp cfg req tok = Except.ok resp)
    (hctx : ∀ p ∈ tok.context, p.1 ≠ "id_token" ∧ p.1 ≠ "refresh_token") :
    (includedInJson resp.body "id_token" =
      (truthyStr tok.user && scopeHas (finishScope cp tok) "openid" &&
        (scopeHas (finishScope cp tok) "profile" || scopeHas (finishScope cp tok) "fhirUser")))
    ∧ (includedInJson resp.body "refresh_token" =
      (scopeHas (finishScope cp tok) "offline_access" ||
        scopeHas (finishScope cp tok) "online_access")) := by
  have hbody := finish_ok_body cp cfg req tok resp h
  constructor
  · rw [includedInJson, hbody,
      objGet_objSet_ne _ "access_token" "id_token" _ (by decide),
      objGet_finishSimError _ _ _ (by decide),
      objGet_spreadContext tok.context _ _ (fun p hp => (hctx p hp).1),
      objGet_finishBase_id_token]
    cases hcond : (truthyStr tok.user && scopeHas (finishScope cp tok) "openid" &&
        (scopeHas (finishScope cp tok) "profile" || scopeHas (finishScope cp tok) "fhirUser")) <;>
      simp [hcond, createIdToken]
  · rw [includedInJson, hbody,
      objGet_objSet_ne _ "access_token" "refresh_token" _ (by decide),
      objGet_finishSimError _ _ _ (by decide),
      objGet_spreadContext tok.context _ _ (fun p hp => (hctx p hp).2),
      objGet_finishBase_refresh_token]
    cases hcond : (scopeHas (finishScope cp tok) "offline_access" ||
        scopeHas (finishScope cp tok) "online_access") <;>
      simp [hcond]

/-- Sample token for the C6 witness: openid and profile scopes with a user,
but no offline or online access. -/
def tokC6 : AuthorizationToken :=
  { scope := some "openid profile", user := some "Patient/42" }

/-- The successful response for the C6 witness. -/
def respC6 : HandlerResponse := (finish cpW cfgW emptyReq tokC6).toOption.getD ⟨[], []⟩

/-- Witness for C6 (amended): the sample response includes an id token and
no refresh token. -/
theorem scope_gating_witness :
    includedInJson respC6.body "id_token" = true
    ∧ includedInJson respC6.body "refresh_token" = false := by
  have h := scope_gating cpW cfgW emptyReq tokC6 respC6 rfl (by decide)
  exact ⟨h.1.trans (by rfl), h.2.trans (by rfl)⟩

/-- Claim C7 counterexample: a token carrying the
`auth_invalid_client_secret` fault-injection tag and no `client_secret` is
rejected with `InvalidClientError` 401 although the request has no
`Authorization` header and the token has no client secret, so the
allowed-iff-no-secret rule as stated does not hold for every token: the
fault injection (token.ts lines 376-378) runs before the header check. -/
def tokC7bad : AuthorizationToken := { auth_error := some "auth_invalid_client_secret" }

/-- Claim C7 counterexample (see `tokC7bad`). -/
theorem basic_auth_counterexample :
    validateBasicAuth cpW emptyReq tokC7bad =
      Except.error (invalidClientError "Simulated invalid client secret error" 401)
    ∧ tokC7bad.client_secret = none
    ∧ emptyReq.authorization = none :=
  ⟨rfl, rfl, rfl⟩

/-- Claim C7 as amended: unless the token carries the
`auth_invalid_client_secret` fault-injection tag, a request with no
`Authorization` header, or with one that does not start with the Basic
scheme (case-insensitive), is allowed iff the token has no (truthy)
`client_secret`; with a `client_secret` it fails with
`InvalidRequestError` 401. -/
theorem basic_auth_no_header (cp : CryptoPrims) (req : TokenRequest)
    (tok : AuthorizationToken)
    (hsim : tok.auth_error ≠ some "auth_invalid_client_secret")
    (hhdr : req.authorization = none ∨
      ∃ hstr, req.authorization = some hstr ∧ hstr.toLower.startsWith "basic" = false) :
    (validateBasicAuth cp req tok = Except.ok () ↔ truthyStr tok.client_secret = false)
    ∧ (truthyStr tok.client_secret = true →
      validateBasicAuth cp req tok = Except.error
        (invalidRequestError "Basic authentication is required for confidential clients" 401)) := by
  have hred : validateBasicAuth cp req tok =
      (if truthyStr tok.client_secret then
        Except.error (invalidRequestError "Basic authentication is required for confidential clients" 401)
      else Except.ok ()) := by
    rcases hhdr with hnone | ⟨hs, hsome, hstart⟩
    · simp [validateBasicAuth, hsim, hnone]
    · simp [validateBasicAuth, hsim, hsome, hstart]
  rw [hred]
  cases hsecret : truthyStr tok.client_secret <;> simp

/-- Witness for C7 (amended): a confidential client token without Basic
credentials is rejected. -/
theorem basic_auth_no_header_witness :
    validateBasicAuth cpW emptyReq { client_secret := some "top-secret" } =
      Except.error (invalidRequestError "Basic authentication is required for confidential clients" 401) :=
  (basic_auth_no_header cpW emptyReq { client_secret := some "top-secret" }
    (by decide) (Or.inl rfl)).2 rfl

/-- Claim C9: the `access_token` of every successful response is assigned
after the context merge (token.ts line 507), so for every authorization
token — including one whose context contains an `access_token` entry — the
response's `access_token` is the freshly signed JWT carrying the forwarded
claims, signed with the symmetric secret, and is never overridden by the
context. -/
theorem access_token_always_fresh (cp : CryptoPrims) (cfg : Config) (req : TokenRequest)
    (tok : AuthorizationToken) (resp : HandlerResponse)
    (h : finish cp cfg req tok = Except.ok resp) :
    objGet resp.body "access_token" = some (JVal.accessTok
      { scope := tok.scope, jwks_url := tok.jwks_url, jwks := tok.jwks
        code_challenge_method := tok.code_challenge_method
        code_challenge := tok.code_challenge
        client_secret := tok.client_secret, nonce := tok.nonce
        auth_error := tok.auth_error }
      cfg.jwtSecret (finishExpiresIn cfg tok)) := by
  rw [finish_ok_body cp cfg req tok resp h, objGet_objSet_self]
  rfl

/-- Sample token for the C9 witness: its context tries to smuggle in an
`access_token` entry. -/
def tokC9 : AuthorizationToken :=
  { scope := some "", context := [("access_token", CtxVal.str "forged")] }

/-- The successful response for the C9 witness. -/
def respC9 : HandlerResponse := (finish cpW cfgW emptyReq tokC9).toOption.getD ⟨[], []⟩

/-- Witness for C9: even with a forged context entry, the response carries
the freshly signed access token. -/
theorem access_token_always_fresh_witness :
    objGet respC9.body "access_token" = some (JVal.accessTok
      ⟨some "", none, none, none, none, none, none, none⟩ "secret" 6000) :=
  access_token_always_fresh cpW cfgW emptyReq tokC9 respC9 rfl

end SmartTokens
